import Mathlib

/-
Verification of the delivery-integration dispatch layer (deliveryCompanyController):
company resolution, configuration / field-mapping validation, order dispatch,
batch dispatch, batch assignment, and the delivery-status webhook.

Machine strings are modelled as Lean `String`; JavaScript Date values as `Nat`
timestamps; JavaScript `undefined`/falsy-string distinctions as `Option String`
with `some ""` handled explicitly where `||` appears in the source.  Database
collections are lists of documents; `findById` / `findOne` are first-match
searches, and Mongoose `save` replaces the document with the matching id.
The external provider HTTP call (`sendToCompany`) is an oracle carried in the
environment, returning either a provider result or an error message.
-/

namespace ZainDelivery

/-- ASCII fragment of the JavaScript whitespace class used by trim and the
regular expressions in the controller. -/
def isJsSpace (c : Char) : Bool :=
  c == ' ' || c == '\t' || c == '\n' || c == '\r' || c == '\x0b' || c == '\x0c'

/-- Drops whitespace at both ends of a character list, as String.prototype.trim. -/
def trimChars (cs : List Char) : List Char :=
  ((cs.dropWhile isJsSpace).reverse.dropWhile isJsSpace).reverse

/-- Replaces each maximal run of whitespace with a single underscore,
as the replacement replace(whitespace-run, underscore) does. -/
def squashWs : Bool → List Char → List Char
  | _, [] => []
  | inRun, c :: rest =>
    if isJsSpace c then
      (if inRun then [] else ['_']) ++ squashWs true rest
    else
      c :: squashWs false rest

/-- normalizeStatusValue from the controller: String(value).trim().toLowerCase()
with whitespace runs replaced by underscores. -/
def normalizeStatusValue (s : String) : String :=
  String.mk (squashWs false ((trimChars s.data).map Char.toLower))

/-- JavaScript a || b for strings, where the empty string is falsy. -/
def jsOrS (a b : String) : String := if a == "" then b else a

/-- JavaScript v || d where v may be undefined (none) or a falsy empty string. -/
def jsOrStr (v : Option String) (d : String) : String :=
  match v with
  | some s => if s == "" then d else s
  | none => d

/-- JavaScript truthiness filter on an optional string: empty strings become none. -/
def jsTruthy (v : Option String) : Option String :=
  match v with
  | some s => if s == "" then none else some s
  | none => none

/-- JavaScript a || b for optional strings (used for the webhook response field
deliveryTrackingNumber || trackingNumber). -/
def jsOrOpt (a b : Option String) : Option String :=
  match jsTruthy a with
  | some s => some s
  | none => jsTruthy b

/-- JavaScript n || 0 on a number: 0 is falsy and maps to 0, all other
integers are truthy and kept. -/
def jsOrZero (n : Int) : Int := if n == 0 then 0 else n

/-- DELIVERY_ALLOWED_STATUSES from the controller: the fixed 8-value internal
delivery-status vocabulary. -/
def DELIVERY_ALLOWED_STATUSES : List String :=
  ["assigned", "picked_up", "in_transit", "out_for_delivery",
   "delivered", "delivery_failed", "returned", "cancelled"]

/-- One statusMapping row of a delivery company: companyStatus → internalStatus. -/
structure StatusMappingEntry where
  companyStatus : String
  internalStatus : String
deriving DecidableEq

/-- One fieldMappings row of a delivery company. -/
structure FieldMapping where
  companyField : String
  internalField : String
  required : Bool
deriving DecidableEq

/-- apiConfiguration subdocument of a delivery company (the part consulted by
the configuration validator). -/
structure ApiConfiguration where
  url : String
  authMethod : String
  username : String
  password : String
  bearer : String
  apiKey : String
  format : String
  params : List (String × String)
  queryParams : List (String × String)
  requiredParams : List String
deriving DecidableEq

/-- credentials subdocument of a delivery company; empty string means absent. -/
structure Credentials where
  username : String
  password : String
  login : String
  database : String
  token : String
  apiKey : String
deriving DecidableEq

/-- A DeliveryCompany document (delivery-relevant subset). -/
structure DeliveryCompany where
  id : Nat
  code : String
  name : String
  isActive : Bool
  isDefault : Bool
  apiConfiguration : ApiConfiguration
  credentials : Credentials
  customFields : List (String × String)
  fieldMappings : List FieldMapping
  statusMapping : List StatusMappingEntry
deriving DecidableEq

/-- An Order document (delivery-relevant subset).  `attrs` are the order
attributes addressable by field mappings; dates are Nat timestamps. -/
@[ext]
structure Order where
  id : Nat
  orderNumber : String
  status : String
  attrs : List (String × String)
  deliveryCompany : Option Nat
  deliveryStatus : String
  deliveryTrackingNumber : Option String
  trackingNumber : Option String
  deliveryAssignedAt : Option Nat
  deliveryFee : Int
  deliveryResponse : Option String
  deliveryNotes : Option String
  deliveryEstimatedDate : Option Nat
  deliveryActualDate : Option Nat
  deliveryStatusUpdated : Option Nat
deriving DecidableEq

/-- Association-list lookup used for params / queryParams / customFields. -/
def lookupAssoc (l : List (String × String)) (k : String) : Option String :=
  (l.find? (fun kv => kv.1 == k)).map (fun kv => kv.2)

/-- First non-empty string of a list, or the empty string. -/
def firstNonEmpty (l : List String) : String :=
  ((l.find? (fun s => s != "")).getD "")

/-- URL well-formedness check: http or https scheme. -/
def isHttpUrl (u : String) : Bool :=
  "http://".data.isPrefixOf u.data || "https://".data.isPrefixOf u.data

def isJsonRpcFormat (f : String) : Bool :=
  f == "jsonrpc" || f == "json-rpc" || f == "json"

/-- Result shape of validateCompanyConfiguration. -/
structure ConfigCheck where
  ok : Bool
  issues : List String
  mode : String
  url : String
deriving DecidableEq

/-- Modelled from the spec: value resolution for a credentials field by name,
used when checking requiredParams (the deliveryIntegrationService source is
not in the repository snapshot). -/
def credentialValue (cr : Credentials) (name : String) : Option String :=
  if name == "login" && cr.login != "" then some cr.login
  else if name == "username" && cr.username != "" then some cr.username
  else if name == "password" && cr.password != "" then some cr.password
  else if (name == "database" || name == "db") && cr.database != "" then some cr.database
  else none

/-- Modelled from the spec: a requiredParams entry is resolvable among
apiConfiguration.params, queryParams, credentials, or customFields (§4.1 of
the specification; deliveryIntegrationService.js is not in the snapshot). -/
def resolveParamValue (c : DeliveryCompany) (name : String) : Option String :=
  match lookupAssoc c.apiConfiguration.params name with
  | some v => some v
  | none =>
    match lookupAssoc c.apiConfiguration.queryParams name with
    | some v => some v
    | none =>
      match credentialValue c.credentials name with
      | some v => some v
      | none => lookupAssoc c.customFields name

/-- Modelled from the spec: validateCompanyConfiguration (§4.1; the
deliveryIntegrationService.js source is not in the repository snapshot).
Fails when the base URL is missing or not http(s), when the auth method's
credentials are absent (basic needs username+password, bearer needs a token,
apiKey needs a key), or when a requiredParams entry has no resolvable value. -/
def validateCompanyConfiguration (c : DeliveryCompany) : ConfigCheck :=
  let a := c.apiConfiguration
  let urlIssues := if isHttpUrl a.url then [] else ["Missing or invalid API base URL"]
  let authIssues :=
    if a.authMethod == "basic" then
      if jsOrS a.username c.credentials.username != "" &&
         jsOrS a.password c.credentials.password != "" then []
      else ["Basic authentication requires username and password"]
    else if a.authMethod == "bearer" then
      if firstNonEmpty [a.bearer, a.apiKey, c.credentials.token, c.credentials.apiKey] != "" then []
      else ["Bearer authentication requires a token"]
    else if a.authMethod == "apiKey" then
      if firstNonEmpty [a.apiKey, c.credentials.apiKey] != "" then []
      else ["API key authentication requires a key"]
    else []
  let paramIssues :=
    (a.requiredParams.filter (fun n => (resolveParamValue c n).isNone)).map
      (fun n => "Missing required parameter: " ++ n)
  let issues := urlIssues ++ authIssues ++ paramIssues
  { ok := issues.isEmpty
    issues := issues
    mode := if isJsonRpcFormat a.format then "jsonrpc" else "rest"
    url := a.url }

/-- Result shape of validateRequiredMappings. -/
structure MappingCheck where
  ok : Bool
  missing : List String
  payload : List (String × String)
deriving DecidableEq

/-- Modelled from the spec: resolution of an order attribute for a field
mapping, with the legacy-field fallback between trackingNumber and
deliveryTrackingNumber (§4.2; service source not in the snapshot). -/
def lookupOrderField (o : Order) (field : String) : Option String :=
  match lookupAssoc o.attrs field with
  | some v => some v
  | none =>
    if field == "trackingNumber" then o.deliveryTrackingNumber
    else if field == "deliveryTrackingNumber" then o.trackingNumber
    else none

/-- A resolved value counts as present only when non-null and non-empty after trim. -/
def resolvedNonEmpty (v : Option String) : Bool :=
  match v with
  | some s => String.mk (trimChars s.data) != ""
  | none => false

/-- Modelled from the spec: validateRequiredMappings (§4.2; the
deliveryIntegrationService.js source is not in the repository snapshot).
missing lists the internal field names of required mappings that fail
resolution; payload is built from all mappings. -/
def validateRequiredMappings (o : Order) (c : DeliveryCompany) : MappingCheck :=
  let missing :=
    (c.fieldMappings.filter
      (fun m => m.required && !resolvedNonEmpty (lookupOrderField o m.internalField))).map
      (fun m => m.internalField)
  let payload :=
    c.fieldMappings.map (fun m => (m.companyField, (lookupOrderField o m.internalField).getD ""))
  { ok := missing.isEmpty, missing := missing, payload := payload }

/-- Modelled from the spec: mapStatus (§4.3; the deliveryIntegrationService.js
source is not in the repository snapshot).  Normalizes the provider status,
takes the first case-insensitive match in the company's statusMapping table,
falls back to the normalized value when it is itself an allowed internal
status, and defaults to assigned. -/
def mapStatus (c : DeliveryCompany) (providerStatus : String) : String :=
  let normalized := normalizeStatusValue providerStatus
  match c.statusMapping.find?
      (fun m => normalizeStatusValue m.companyStatus == normalized) with
  | some m => m.internalStatus
  | none =>
    if DELIVERY_ALLOWED_STATUSES.contains normalized then normalized else "assigned"

/-- Result of the external provider call sendToCompany (§4.4). -/
structure ProviderResult where
  trackingNumber : String
  providerResponse : String
  providerStatus : Option String
deriving DecidableEq

/-- The request environment: database collections, the clock, the configured
webhook token (empty string when the environment variable is unset), and the
external provider-call oracle. -/
structure Env where
  companies : List DeliveryCompany
  orders : List Order
  now : Nat
  webhookToken : String
  send : Order → DeliveryCompany → Int → Except String ProviderResult

/-- DeliveryCompany.findById. -/
def findCompanyById (cs : List DeliveryCompany) (i : Nat) : Option DeliveryCompany :=
  cs.find? (fun c => c.id == i)

/-- DeliveryCompany.findOne by code. -/
def findCompanyByCode (cs : List DeliveryCompany) (code : String) : Option DeliveryCompany :=
  cs.find? (fun c => c.code == code)

/-- Order.findById. -/
def findOrderById (orders : List Order) (i : Nat) : Option Order :=
  orders.find? (fun o => o.id == i)

/-- Mongoose save: replace the stored document with the same id. -/
def saveOrder (orders : List Order) (o2 : Order) : List Order :=
  orders.map (fun x => if x.id == o2.id then o2 else x)

/-- findOne isActive sorted by name: the active company with the least name
(first such on ties, matching a stable sort). -/
def firstActiveByName (cs : List DeliveryCompany) : Option DeliveryCompany :=
  (cs.filter (fun c => c.isActive)).foldl
    (fun acc c =>
      match acc with
      | none => some c
      | some b => if c.name < b.name then some c else acc)
    none

/-- The webhook request body after alias resolution (camelCase/snake_case) and
date parsing; none stands for an absent or falsy value, and dates that failed
to parse are none (parseOptionalDate). -/
structure WebhookPayload where
  orderId : Option Nat
  orderNumber : Option String
  trackingNumber : Option String
  providerStatus : Option String
  companyId : Option Nat
  companyCode : Option String
  orderStatus : Option String
  notes : Option String
  estimatedDate : Option Nat
  actualDate : Option Nat
  occurredAt : Option Nat
deriving DecidableEq

/-- Webhook order resolution: by id, else by order number, else by tracking
number matching either the canonical or the legacy field. -/
def resolveWebhookOrder (orders : List Order) (p : WebhookPayload) : Option Order :=
  let byId :=
    match p.orderId with
    | some oid => findOrderById orders oid
    | none => none
  match byId with
  | some o => some o
  | none =>
    let byNumber :=
      match p.orderNumber with
      | some n => orders.find? (fun o => o.orderNumber == n)
      | none => none
    match byNumber with
    | some o => some o
    | none =>
      match p.trackingNumber with
      | some t =>
        orders.find? (fun o => o.deliveryTrackingNumber == some t || o.trackingNumber == some t)
      | none => none

/-- Webhook company resolution: explicit companyId, else explicit companyCode,
else the order's already-assigned company; a failed explicit lookup does not
fall through to the next strategy. -/
def resolveWebhookCompany (env : Env) (p : WebhookPayload) (o : Order) : Option DeliveryCompany :=
  match p.companyId with
  | some cid => findCompanyById env.companies cid
  | none =>
    match p.companyCode with
    | some cc => findCompanyByCode env.companies cc
    | none =>
      match o.deliveryCompany with
      | some cid => findCompanyById env.companies cid
      | none => none

/-- The mapped status computed by the webhook: through mapStatus when a company
was resolved, otherwise the inline fixed-vocabulary fallback of the controller. -/
def webhookMappedStatus (company : Option DeliveryCompany) (providerStatus : Option String) : String :=
  match company with
  | some c => mapStatus c (jsOrStr providerStatus "assigned")
  | none =>
    let normalized := normalizeStatusValue (jsOrStr providerStatus "assigned")
    if DELIVERY_ALLOWED_STATUSES.contains normalized then normalized else "assigned"

/-- The mapped status for a given environment, payload and resolved order. -/
def webhookStatusOf (env : Env) (p : WebhookPayload) (o : Order) : String :=
  webhookMappedStatus (resolveWebhookCompany env p o) p.providerStatus

/-- The field updates the webhook applies to the resolved order (controller
lines 280–302): status and timestamp always; tracking mirror, company
attachment, order status, notes and dates conditionally.  The source performs
these as sequential assignments that each read only pre-update fields, so the
simultaneous record update is equivalent. -/
def applyWebhookUpdate (env : Env) (p : WebhookPayload) (o : Order) : Order :=
  { o with
    deliveryStatus := webhookStatusOf env p o
    deliveryStatusUpdated := some (p.occurredAt.getD env.now)
    deliveryTrackingNumber :=
      match p.trackingNumber with
      | some t => some t
      | none => o.deliveryTrackingNumber
    trackingNumber :=
      match p.trackingNumber with
      | some t => some t
      | none => o.trackingNumber
    deliveryCompany :=
      match resolveWebhookCompany env p o, o.deliveryCompany with
      | some c, none => some c.id
      | _, _ => o.deliveryCompany
    status :=
      match p.orderStatus with
      | some s => s
      | none => o.status
    deliveryNotes :=
      match p.notes with
      | some n => some n
      | none => o.deliveryNotes
    deliveryEstimatedDate :=
      match p.estimatedDate with
      | some d => some d
      | none => o.deliveryEstimatedDate
    deliveryActualDate :=
      match p.actualDate with
      | some d => some d
      | none =>
        if webhookStatusOf env p o == "delivered" && o.deliveryActualDate.isNone
        then some env.now
        else o.deliveryActualDate }

/-- Extraction of the bearer token from the Authorization header: strip a
case-insensitive Bearer prefix followed by whitespace, then trim. -/
def stripBearer (h : String) : String :=
  let cs := h.data
  let hasTag :=
    ((cs.take 6).map Char.toLower == "bearer".data) &&
    (match cs.drop 6 with
     | c :: _ => isJsSpace c
     | [] => false)
  let body := if hasTag then (cs.drop 6).dropWhile isJsSpace else cs
  String.mk (trimChars body)

/-- Outcome of the webhook endpoint. -/
inductive WebhookResult where
  | notConfigured
  | invalidToken
  | identifierRequired
  | orderNotFound
  | ok (orderId : Nat) (orderNumber : String) (deliveryStatus : String)
       (deliveryTrackingNumber : Option String)
deriving DecidableEq

def webhookStatusCode : WebhookResult → Nat
  | .notConfigured => 500
  | .invalidToken => 401
  | .identifierRequired => 400
  | .orderNotFound => 404
  | .ok _ _ _ _ => 200

def webhookMessage : WebhookResult → String
  | .notConfigured => "webhook_not_configured"
  | .invalidToken => "invalid_token"
  | .identifierRequired => "orderId, orderNumber, or trackingNumber is required"
  | .orderNotFound => "order_not_found"
  | .ok _ _ _ _ => ""

/-- deliveryStatusWebhook: token checks, identifier check, order resolution,
status update, save, response. -/
def deliveryStatusWebhook (env : Env) (authHeader : Option String) (p : WebhookPayload) :
    WebhookResult × List Order :=
  if env.webhookToken == "" then (.notConfigured, env.orders)
  else
    let token := stripBearer (authHeader.getD "")
    if token == "" || token != env.webhookToken then (.invalidToken, env.orders)
    else if p.orderId.isNone && p.orderNumber.isNone && p.trackingNumber.isNone then
      (.identifierRequired, env.orders)
    else
      match resolveWebhookOrder env.orders p with
      | none => (.orderNotFound, env.orders)
      | some o =>
        let o2 := applyWebhookUpdate env p o
        (.ok o2.id o2.orderNumber o2.deliveryStatus
           (jsOrOpt o2.deliveryTrackingNumber o2.trackingNumber),
         saveOrder env.orders o2)

/-- Explicit company resolution for sendOrder / batchSendOrders: by id when
given, else by code when given; a failed explicit lookup yields none here. -/
def resolveExplicitCompany (cs : List DeliveryCompany) (cid : Option Nat) (cc : Option String) :
    Option DeliveryCompany :=
  match cid with
  | some i => findCompanyById cs i
  | none =>
    match cc with
    | some code => findCompanyByCode cs code
    | none => none

/-- Full company resolution for sendOrder / batchSendOrders: explicit id/code,
else the active default company, else the first active company by name. -/
def resolveSendCompany (cs : List DeliveryCompany) (cid : Option Nat) (cc : Option String) :
    Option DeliveryCompany :=
  match resolveExplicitCompany cs cid cc with
  | some c => some c
  | none =>
    match cs.find? (fun c => c.isActive && c.isDefault) with
    | some c => some c
    | none => firstActiveByName cs

/-- The field updates sendOrder persists on the order after a successful
provider call (controller lines 600–607); batchSendOrders applies the same
assignments per order (lines 733–739). -/
def sendOrderApply (c : DeliveryCompany) (pr : ProviderResult) (now : Nat) (fee : Int)
    (o : Order) : Order :=
  { o with
    deliveryCompany := some c.id
    deliveryStatus := mapStatus c (jsOrStr pr.providerStatus "assigned")
    deliveryTrackingNumber := some pr.trackingNumber
    trackingNumber := some pr.trackingNumber
    deliveryAssignedAt := some now
    deliveryFee := jsOrZero fee
    deliveryResponse := some pr.providerResponse }

/-- Request body of sendOrder. -/
structure SendRequest where
  orderId : Option Nat
  companyId : Option Nat
  companyCode : Option String
  deliveryFee : Int
deriving DecidableEq

/-- Outcome of sendOrder. -/
inductive SendResult where
  | orderIdRequired
  | orderNotFound
  | companyNotFound
  | configInvalid (issues : List String) (mode : String) (url : String)
  | mappingMissing (missing : List String) (payloadPreview : List (String × String))
  | providerError (message : String)
  | success (trackingNumber : String) (status : String) (response : String)
deriving DecidableEq

def sendStatusCode : SendResult → Nat
  | .orderIdRequired => 400
  | .orderNotFound => 404
  | .companyNotFound => 404
  | .configInvalid _ _ _ => 400
  | .mappingMissing _ _ => 400
  | .providerError _ => 500
  | .success _ _ _ => 200

def sendMessage : SendResult → String
  | .orderIdRequired => "orderId is required"
  | .orderNotFound => "Order not found"
  | .companyNotFound => "Delivery company not found"
  | .configInvalid _ _ _ => "Delivery company configuration is incomplete"
  | .mappingMissing _ _ => "Missing required mapped fields"
  | .providerError m => m
  | .success _ _ _ => "Order sent to delivery company"

/-- sendOrder: resolve company, load order, validate configuration and
required mappings, call the provider, persist the delivery fields. -/
def sendOrder (env : Env) (r : SendRequest) : SendResult × List Order :=
  match r.orderId with
  | none => (.orderIdRequired, env.orders)
  | some oid =>
    let company := resolveSendCompany env.companies r.companyId r.companyCode
    match findOrderById env.orders oid with
    | none => (.orderNotFound, env.orders)
    | some o =>
      match company with
      | none => (.companyNotFound, env.orders)
      | some c =>
        let cfg := validateCompanyConfiguration c
        if !cfg.ok then (.configInvalid cfg.issues cfg.mode cfg.url, env.orders)
        else
          let check := validateRequiredMappings o c
          if !check.ok then (.mappingMissing check.missing check.payload, env.orders)
          else
            match env.send o c r.deliveryFee with
            | .error msg => (.providerError msg, env.orders)
            | .ok pr =>
              let o2 := sendOrderApply c pr env.now r.deliveryFee o
              (.success pr.trackingNumber o2.deliveryStatus pr.providerResponse,
               saveOrder env.orders o2)

/-- The $set update document of batchAssignOrders applied to one order:
company and assignment time always; tracking mirror, delivery status and
order status only when supplied. -/
def batchAssignUpdate (companyId : Nat) (now : Nat) (trackingNumber : Option String)
    (deliveryStatus orderStatus : Option String) (o : Order) : Order :=
  let o1 := { o with deliveryCompany := some companyId, deliveryAssignedAt := some now }
  let o2 :=
    match trackingNumber with
    | some t => { o1 with deliveryTrackingNumber := some t, trackingNumber := some t }
    | none => o1
  let o3 :=
    match deliveryStatus with
    | some s => { o2 with deliveryStatus := s }
    | none => o2
  match orderStatus with
  | some s => { o3 with status := s }
  | none => o3

/-- batchAssignOrders: updateMany over the listed order ids with the same
$set document (no external send). -/
def batchAssignOrders (env : Env) (orderIds : List Nat) (companyId : Nat)
    (trackingNumber deliveryStatus orderStatus : Option String) : List Order :=
  match findCompanyById env.companies companyId with
  | none => env.orders
  | some c =>
    env.orders.map (fun o =>
      if orderIds.contains o.id
      then batchAssignUpdate c.id env.now trackingNumber deliveryStatus orderStatus o
      else o)

/-- One per-order result entry of batchSendOrders. -/
structure BatchEntry where
  orderId : Nat
  success : Bool
  trackingNumber : Option String
  status : Option String
  error : Option String
  code : Option String
  missing : Option (List String)
deriving DecidableEq

/-- One iteration of the batchSendOrders loop: every failure becomes a result
entry carrying the thrown error message instead of propagating. -/
def batchProcessOne (env : Env) (c : DeliveryCompany) (fee : Int) (orders : List Order)
    (oid : Nat) : BatchEntry × List Order :=
  match findOrderById orders oid with
  | none =>
    ({ orderId := oid, success := false, trackingNumber := none, status := none
       error := some "Order not found", code := none, missing := none }, orders)
  | some o =>
    let cfg := validateCompanyConfiguration c
    if !cfg.ok then
      ({ orderId := oid, success := false, trackingNumber := none, status := none
         error := some "Delivery company configuration incomplete"
         code := some "CONFIG_INVALID", missing := none }, orders)
    else
      let check := validateRequiredMappings o c
      if !check.ok then
        ({ orderId := oid, success := false, trackingNumber := none, status := none
           error := some "Missing required mapped fields"
           code := some "MAPPING_MISSING", missing := some check.missing }, orders)
      else
        match env.send o c fee with
        | .error msg =>
          ({ orderId := oid, success := false, trackingNumber := none, status := none
             error := some msg, code := none, missing := none }, orders)
        | .ok pr =>
          let o2 := sendOrderApply c pr env.now fee o
          ({ orderId := oid, success := true, trackingNumber := some pr.trackingNumber
             status := some o2.deliveryStatus, error := none, code := none, missing := none },
           saveOrder orders o2)

/-- The sequential loop of batchSendOrders; stopOnError breaks after the
first failing entry. -/
def batchLoop (env : Env) (c : DeliveryCompany) (fee : Int) (stopOnError : Bool) :
    List Nat → List Order → List BatchEntry × List Order
  | [], orders => ([], orders)
  | oid :: rest, orders =>
    let step := batchProcessOne env c fee orders oid
    if !step.1.success && stopOnError then ([step.1], step.2)
    else
      let more := batchLoop env c fee stopOnError rest step.2
      (step.1 :: more.1, more.2)

/-- Outcome of batchSendOrders. -/
inductive BatchResult where
  | orderIdsRequired
  | companyNotFound
  | done (success : Bool) (companyId : Nat) (companyName : String)
         (total succeeded failed : Nat) (results : List BatchEntry)
deriving DecidableEq

/-- batchSendOrders: one company for the whole batch, then the sequential
per-order loop, then the aggregate summary. -/
def batchSendOrders (env : Env) (orderIds : List Nat) (cid : Option Nat) (cc : Option String)
    (fee : Int) (stopOnError : Bool) : BatchResult × List Order :=
  if orderIds.isEmpty then (.orderIdsRequired, env.orders)
  else
    match resolveSendCompany env.companies cid cc with
    | none => (.companyNotFound, env.orders)
    | some c =>
      let run := batchLoop env c fee stopOnError orderIds env.orders
      (.done (run.1.all (fun r => r.success)) c.id c.name
         orderIds.length
         (run.1.filter (fun r => r.success)).length
         (run.1.filter (fun r => !r.success)).length
         run.1,
       run.2)

/-! Concrete instances used to witness the theorems below. -/

/-- A minimally valid REST configuration. -/
def exApiConfig : ApiConfiguration :=
  { url := "https://speedy.example/api", authMethod := "none", username := "", password := ""
    bearer := "", apiKey := "", format := "rest", params := [], queryParams := []
    requiredParams := [] }

def exCredentials : Credentials :=
  { username := "", password := "", login := "", database := "", token := "", apiKey := "" }

/-- An active default company with one required field mapping and no status mapping. -/
def exCompany : DeliveryCompany :=
  { id := 7, code := "SPD", name := "Speedy", isActive := true, isDefault := true
    apiConfiguration := exApiConfig, credentials := exCredentials, customFields := []
    fieldMappings :=
      [{ companyField := "customer_name", internalField := "customerName", required := true }]
    statusMapping := [] }

/-- The same company with its base URL removed, so configuration validation fails. -/
def exBadUrlCompany : DeliveryCompany :=
  { exCompany with apiConfiguration := { exApiConfig with url := "" } }

/-- An order carrying the attribute required by exCompany's mapping. -/
def exOrder : Order :=
  { id := 1, orderNumber := "ORD123", status := "processing"
    attrs := [("customerName", "Dana")]
    deliveryCompany := none, deliveryStatus := "", deliveryTrackingNumber := none
    trackingNumber := none, deliveryAssignedAt := none, deliveryFee := 0
    deliveryResponse := none, deliveryNotes := none, deliveryEstimatedDate := none
    deliveryActualDate := none, deliveryStatusUpdated := none }

/-- The same order without the mapped attribute, so mapping validation fails. -/
def exOrderNoName : Order := { exOrder with attrs := [] }

def exProviderResult : ProviderResult :=
  { trackingNumber := "TRK9", providerResponse := "raw-provider-payload", providerStatus := none }

/-- Environment with one company, one order and an always-succeeding provider. -/
def exEnv : Env :=
  { companies := [exCompany], orders := [exOrder], now := 1000, webhookToken := "sekret"
    send := fun _ _ _ => Except.ok exProviderResult }

/-- Environment whose only company has an invalid configuration. -/
def exEnvBadUrl : Env := { exEnv with companies := [exBadUrlCompany] }

/-- Environment whose only order is missing the required mapped attribute. -/
def exEnvNoName : Env := { exEnv with orders := [exOrderNoName] }

/-- A webhook payload addressing exOrder by order number with a delivered status. -/
def exWebhookPayload : WebhookPayload :=
  { orderId := none, orderNumber := some "ORD123", trackingNumber := some "TRK9"
    providerStatus := some "delivered", companyId := none, companyCode := none
    orderStatus := none, notes := none, estimatedDate := none, actualDate := none
    occurredAt := none }

/-! Projection lemmas for applyWebhookUpdate. -/

theorem applyWebhookUpdate_id (env : Env) (p : WebhookPayload) (o : Order) :
    (applyWebhookUpdate env p o).id = o.id := rfl

theorem applyWebhookUpdate_orderNumber (env : Env) (p : WebhookPayload) (o : Order) :
    (applyWebhookUpdate env p o).orderNumber = o.orderNumber := rfl

theorem applyWebhookUpdate_attrs (env : Env) (p : WebhookPayload) (o : Order) :
    (applyWebhookUpdate env p o).attrs = o.attrs := rfl

theorem applyWebhookUpdate_deliveryAssignedAt (env : Env) (p : WebhookPayload) (o : Order) :
    (applyWebhookUpdate env p o).deliveryAssignedAt = o.deliveryAssignedAt := rfl

theorem applyWebhookUpdate_deliveryFee (env : Env) (p : WebhookPayload) (o : Order) :
    (applyWebhookUpdate env p o).deliveryFee = o.deliveryFee := rfl

theorem applyWebhookUpdate_deliveryResponse (env : Env) (p : WebhookPayload) (o : Order) :
    (applyWebhookUpdate env p o).deliveryResponse = o.deliveryResponse := rfl

theorem applyWebhookUpdate_deliveryStatus (env : Env) (p : WebhookPayload) (o : Order) :
    (applyWebhookUpdate env p o).deliveryStatus = webhookStatusOf env p o := rfl

theorem applyWebhookUpdate_deliveryStatusUpdated (env : Env) (p : WebhookPayload) (o : Order) :
    (applyWebhookUpdate env p o).deliveryStatusUpdated = some (p.occurredAt.getD env.now) := rfl

theorem applyWebhookUpdate_deliveryTrackingNumber (env : Env) (p : WebhookPayload) (o : Order) :
    (applyWebhookUpdate env p o).deliveryTrackingNumber =
      match p.trackingNumber with
      | some t => some t
      | none => o.deliveryTrackingNumber := rfl

theorem applyWebhookUpdate_trackingNumber (env : Env) (p : WebhookPayload) (o : Order) :
    (applyWebhookUpdate env p o).trackingNumber =
      match p.trackingNumber with
      | some t => some t
      | none => o.trackingNumber := rfl

theorem applyWebhookUpdate_deliveryCompany (env : Env) (p : WebhookPayload) (o : Order) :
    (applyWebhookUpdate env p o).deliveryCompany =
      match resolveWebhookCompany env p o, o.deliveryCompany with
      | some c, none => some c.id
      | _, _ => o.deliveryCompany := rfl

theorem applyWebhookUpdate_status (env : Env) (p : WebhookPayload) (o : Order) :
    (applyWebhookUpdate env p o).status =
      match p.orderStatus with
      | some s => s
      | none => o.status := rfl

theorem applyWebhookUpdate_deliveryNotes (env : Env) (p : WebhookPayload) (o : Order) :
    (applyWebhookUpdate env p o).deliveryNotes =
      match p.notes with
      | some n => some n
      | none => o.deliveryNotes := rfl

theorem applyWebhookUpdate_deliveryEstimatedDate (env : Env) (p : WebhookPayload) (o : Order) :
    (applyWebhookUpdate env p o).deliveryEstimatedDate =
      match p.estimatedDate with
      | some d => some d
      | none => o.deliveryEstimatedDate := rfl

theorem applyWebhookUpdate_deliveryActualDate (env : Env) (p : WebhookPayload) (o : Order) :
    (applyWebhookUpdate env p o).deliveryActualDate =
      match p.actualDate with
      | some d => some d
      | none =>
        if webhookStatusOf env p o == "delivered" && o.deliveryActualDate.isNone
        then some env.now
        else o.deliveryActualDate := rfl

/-- The webhook's company resolution is unchanged by applying the webhook
update itself: it either uses explicit payload identifiers or the order's
deliveryCompany, which the update never overwrites once set and never sets
unless a company was resolved. -/
theorem resolveWebhookCompany_apply (env : Env) (p : WebhookPayload) (o : Order) :
    resolveWebhookCompany env p (applyWebhookUpdate env p o) =
      resolveWebhookCompany env p o := by
  cases hci : p.companyId with
  | some cid => simp [resolveWebhookCompany, hci]
  | none =>
    cases hcc : p.companyCode with
    | some cc => simp [resolveWebhookCompany, hci, hcc]
    | none =>
      have hdc := applyWebhookUpdate_deliveryCompany env p o
      cases hodc : o.deliveryCompany with
      | some cid =>
        have : (applyWebhookUpdate env p o).deliveryCompany = some cid := by
          rw [hdc, hodc]
          cases resolveWebhookCompany env p o <;> rfl
        simp [resolveWebhookCompany, hci, hcc, this, hodc]
      | none =>
        have hro : resolveWebhookCompany env p o = none := by
          simp [resolveWebhookCompany, hci, hcc, hodc]
        have : (applyWebhookUpdate env p o).deliveryCompany = none := by
          rw [hdc, hro, hodc]
        simp [resolveWebhookCompany, hci, hcc, this, hro, hodc]

/-- The webhook's mapped status is unchanged by applying the update itself. -/
theorem webhookStatusOf_apply (env : Env) (p : WebhookPayload) (o : Order) :
    webhookStatusOf env p (applyWebhookUpdate env p o) = webhookStatusOf env p o := by
  unfold webhookStatusOf
  rw [resolveWebhookCompany_apply]

/-- jsOrZero is the identity on integers: 0 maps to 0 and every other value
is truthy, so the delivery fee is persisted unmodified. -/
theorem jsOrZero_eq (n : Int) : jsOrZero n = n := by
  unfold jsOrZero
  by_cases h : n = 0 <;> simp [h]

/-- A company resolved by the webhook comes from the companies collection. -/
theorem resolveWebhookCompany_mem (env : Env) (p : WebhookPayload) (o : Order)
    (c : DeliveryCompany) (h : resolveWebhookCompany env p o = some c) :
    c ∈ env.companies := by
  unfold resolveWebhookCompany at h
  cases hci : p.companyId with
  | some cid =>
    rw [hci] at h
    exact List.mem_of_find?_eq_some h
  | none =>
    rw [hci] at h
    cases hcc : p.companyCode with
    | some cc =>
      rw [hcc] at h
      exact List.mem_of_find?_eq_some h
    | none =>
      rw [hcc] at h
      cases hodc : o.deliveryCompany with
      | some cid =>
        rw [hodc] at h
        exact List.mem_of_find?_eq_some h
      | none => rw [hodc] at h; exact absurd h (by simp)

/-- Saving an order whose id occurs in the collection makes the saved document
the one found by a subsequent findById for that id. -/
theorem findOrderById_saveOrder (orders : List Order) (o2 : Order)
    (h : ∃ x ∈ orders, x.id = o2.id) :
    findOrderById (saveOrder orders o2) o2.id = some o2 := by
  induction orders with
  | nil => simp at h
  | cons y t ih =>
    by_cases hy : y.id = o2.id
    · simp [findOrderById, saveOrder, hy]
    · have hnot : (y.id == o2.id) = false := by simp [hy]
      have h' : ∃ x ∈ t, x.id = o2.id := by
        rcases h with ⟨x, hx, hxid⟩
        rcases List.mem_cons.mp hx with rfl | hxt
        · exact absurd hxid hy
        · exact ⟨x, hxt, hxid⟩
      have ht := ih h'
      unfold findOrderById saveOrder at ht ⊢
      rw [List.map_cons, List.find?_cons_of_neg]
      · exact ht
      · simp [hnot]

/-- C4: sendOrder resolves its target company by explicit companyId if given,
else by explicit companyCode, else the active company flagged default, else
the first active company in name order; when nothing resolves (and the order
itself exists), it fails with a 404 Delivery-company-not-found response and
leaves the order collection untouched. -/
theorem C4_company_resolution_precedence :
    (∀ (cs : List DeliveryCompany) (i : Nat) (cc : Option String) (c : DeliveryCompany),
      findCompanyById cs i = some c → resolveSendCompany cs (some i) cc = some c) ∧
    (∀ (cs : List DeliveryCompany) (code : String) (c : DeliveryCompany),
      findCompanyByCode cs code = some c → resolveSendCompany cs none (some code) = some c) ∧
    (∀ (cs : List DeliveryCompany) (cid : Option Nat) (cc : Option String) (c : DeliveryCompany),
      resolveExplicitCompany cs cid cc = none →
      cs.find? (fun x => x.isActive && x.isDefault) = some c →
      resolveSendCompany cs cid cc = some c) ∧
    (∀ (cs : List DeliveryCompany) (cid : Option Nat) (cc : Option String),
      resolveExplicitCompany cs cid cc = none →
      cs.find? (fun x => x.isActive && x.isDefault) = none →
      resolveSendCompany cs cid cc = firstActiveByName cs) ∧
    (∀ (env : Env) (oid : Nat) (cid : Option Nat) (cc : Option String) (fee : Int) (o : Order),
      findOrderById env.orders oid = some o →
      resolveSendCompany env.companies cid cc = none →
      sendOrder env (SendRequest.mk (some oid) cid cc fee)
        = (.companyNotFound, env.orders) ∧
      sendStatusCode .companyNotFound = 404 ∧
      sendMessage .companyNotFound = "Delivery company not found") := by
  refine ⟨?_, ?_, ?_, ?_, ?_⟩
  · intro cs i cc c h
    simp [resolveSendCompany, resolveExplicitCompany, h]
  · intro cs code c h
    simp [resolveSendCompany, resolveExplicitCompany, h]
  · intro cs cid cc c hexp hdef
    simp [resolveSendCompany, hexp, hdef]
  · intro cs cid cc hexp hdef
    simp [resolveSendCompany, hexp, hdef]
  · intro env oid cid cc fee o horder hres
    exact ⟨by simp [sendOrder, horder, hres], rfl, rfl⟩

/-- Witness for C4 at concrete inputs: an explicit companyId wins, and with no
companies at all the request fails with the company-not-found result. -/
theorem C4_company_resolution_precedence_witness :
    resolveSendCompany [exCompany] (some 7) none = some exCompany ∧
    (sendOrder { exEnv with companies := [] }
        (SendRequest.mk (some 1) none none 0)).1
      = SendResult.companyNotFound := by
  constructor
  · exact C4_company_resolution_precedence.1 [exCompany] 7 none exCompany rfl
  · have h := C4_company_resolution_precedence.2.2.2.2
      { exEnv with companies := [] } 1 none none 0 exOrder rfl rfl
    rw [h.1]

/-- C5: every operation that writes a tracking number (sendOrder and
batchSendOrders through sendOrderApply, batchAssignOrders, and the delivery
webhook) either leaves both the canonical deliveryTrackingNumber and the
legacy trackingNumber untouched, or writes the same value into both, keeping
the two fields equal whenever either is set. -/
theorem C5_tracking_number_mirror :
    (∀ (c : DeliveryCompany) (pr : ProviderResult) (now : Nat) (fee : Int) (o : Order),
      (sendOrderApply c pr now fee o).deliveryTrackingNumber
        = (sendOrderApply c pr now fee o).trackingNumber) ∧
    (∀ (cid now : Nat) (tn ds os : Option String) (o : Order),
      ((batchAssignUpdate cid now tn ds os o).deliveryTrackingNumber
          = o.deliveryTrackingNumber ∧
        (batchAssignUpdate cid now tn ds os o).trackingNumber = o.trackingNumber) ∨
      (batchAssignUpdate cid now tn ds os o).deliveryTrackingNumber
        = (batchAssignUpdate cid now tn ds os o).trackingNumber) ∧
    (∀ (env : Env) (p : WebhookPayload) (o : Order),
      ((applyWebhookUpdate env p o).deliveryTrackingNumber = o.deliveryTrackingNumber ∧
        (applyWebhookUpdate env p o).trackingNumber = o.trackingNumber) ∨
      (applyWebhookUpdate env p o).deliveryTrackingNumber
        = (applyWebhookUpdate env p o).trackingNumber) := by
  refine ⟨?_, ?_, ?_⟩
  · intro c pr now fee o
    rfl
  · intro cid now tn ds os o
    cases tn <;> cases ds <;> cases os
    all_goals first
      | exact Or.inl ⟨rfl, rfl⟩
      | exact Or.inr rfl
  · intro env p o
    rw [applyWebhookUpdate_deliveryTrackingNumber, applyWebhookUpdate_trackingNumber]
    cases p.trackingNumber with
    | some t => exact Or.inr rfl
    | none => exact Or.inl ⟨rfl, rfl⟩

/-- C6: when the webhook bearer-token environment configuration is absent the
webhook responds 500 webhook_not_configured, and when the supplied bearer
token is absent or different from the configured token it responds 401
invalid_token; in both cases the order collection is returned unchanged. -/
theorem C6_webhook_auth_failures (env : Env) (hdr : Option String) (p : WebhookPayload) :
    (env.webhookToken = "" →
      deliveryStatusWebhook env hdr p = (.notConfigured, env.orders) ∧
      webhookStatusCode .notConfigured = 500 ∧
      webhookMessage .notConfigured = "webhook_not_configured") ∧
    (env.webhookToken ≠ "" →
      (stripBearer (hdr.getD "") = "" ∨ stripBearer (hdr.getD "") ≠ env.webhookToken) →
      deliveryStatusWebhook env hdr p = (.invalidToken, env.orders) ∧
      webhookStatusCode .invalidToken = 401 ∧
      webhookMessage .invalidToken = "invalid_token") := by
  constructor
  · intro h
    refine ⟨?_, rfl, rfl⟩
    simp [deliveryStatusWebhook, h]
  · intro h ht
    refine ⟨?_, rfl, rfl⟩
    have h1 : (env.webhookToken == "") = false := by simp [h]
    have h2 : (stripBearer (hdr.getD "") == ""
        || stripBearer (hdr.getD "") != env.webhookToken) = true := by
      rcases ht with ht | ht <;> simp [ht]
    simp [deliveryStatusWebhook, h1, h2]

/-- Witness for C6: a concrete unconfigured environment yields the 500 result,
and a wrong bearer token against the configured environment yields the 401
result, both leaving the orders unchanged. -/
theorem C6_webhook_auth_failures_witness :
    deliveryStatusWebhook { exEnv with webhookToken := "" } (some "Bearer sekret")
        exWebhookPayload = (.notConfigured, exEnv.orders) ∧
    deliveryStatusWebhook exEnv (some "Bearer wrong") exWebhookPayload
      = (.invalidToken, exEnv.orders) :=
  ⟨((C6_webhook_auth_failures { exEnv with webhookToken := "" } (some "Bearer sekret")
      exWebhookPayload).1 rfl).1,
   ((C6_webhook_auth_failures exEnv (some "Bearer wrong") exWebhookPayload).2
      (by decide) (Or.inr (by decide))).1⟩

/-- C7: when a webhook update maps to the delivered status, the updated order
always carries a deliveryActualDate: the payload's actual date when supplied,
the pre-existing one otherwise, and the current time when neither exists. -/
theorem C7_delivered_has_actual_date (env : Env) (p : WebhookPayload) (o : Order)
    (h : (applyWebhookUpdate env p o).deliveryStatus = "delivered") :
    ((applyWebhookUpdate env p o).deliveryActualDate).isSome = true ∧
    (∀ d, p.actualDate = some d → (applyWebhookUpdate env p o).deliveryActualDate = some d) ∧
    (p.actualDate = none → o.deliveryActualDate = none →
      (applyWebhookUpdate env p o).deliveryActualDate = some env.now) := by
  rw [applyWebhookUpdate_deliveryStatus] at h
  have hbeq : (webhookStatusOf env p o == "delivered") = true := by simp [h]
  refine ⟨?_, ?_, ?_⟩
  · rw [applyWebhookUpdate_deliveryActualDate]
    cases hpa : p.actualDate with
    | some d => simp
    | none =>
      cases hoa : o.deliveryActualDate with
      | some d0 => simp [hbeq, hoa]
      | none => simp [hbeq, hoa]
  · intro d hd
    rw [applyWebhookUpdate_deliveryActualDate, hd]
  · intro hpa hoa
    rw [applyWebhookUpdate_deliveryActualDate, hpa]
    simp [hbeq, hoa]

/-- Witness for C7: the concrete delivered webhook payload applied to an order
with no actual date stamps the current time. -/
theorem C7_delivered_has_actual_date_witness :
    (applyWebhookUpdate exEnv exWebhookPayload exOrder).deliveryStatus = "delivered" ∧
    (applyWebhookUpdate exEnv exWebhookPayload exOrder).deliveryActualDate = some 1000 :=
  ⟨by decide,
   (C7_delivered_has_actual_date exEnv exWebhookPayload exOrder (by decide)).2.2 rfl rfl⟩

/-- C10: the webhook writes deliveryCompany only onto an order that has none:
an already-assigned company is never changed, an unassigned order is attached
to the resolved company, and without a resolved company the field stays empty. -/
theorem C10_webhook_never_reassigns_company (env : Env) (p : WebhookPayload) (o : Order) :
    (∀ cid, o.deliveryCompany = some cid →
      (applyWebhookUpdate env p o).deliveryCompany = some cid) ∧
    (∀ c, o.deliveryCompany = none → resolveWebhookCompany env p o = some c →
      (applyWebhookUpdate env p o).deliveryCompany = some c.id) ∧
    (o.deliveryCompany = none → resolveWebhookCompany env p o = none →
      (applyWebhookUpdate env p o).deliveryCompany = none) := by
  refine ⟨?_, ?_, ?_⟩
  · intro cid h
    rw [applyWebhookUpdate_deliveryCompany, h]
    cases resolveWebhookCompany env p o <;> rfl
  · intro c h hc
    rw [applyWebhookUpdate_deliveryCompany, h, hc]
  · intro h hc
    rw [applyWebhookUpdate_deliveryCompany, h, hc]

/-- Witness for C10: an order already assigned to company 42 keeps company 42
across a webhook update that would otherwise resolve company 7. -/
theorem C10_webhook_never_reassigns_company_witness :
    (applyWebhookUpdate exEnv
        { exWebhookPayload with companyId := some 7 }
        { exOrder with deliveryCompany := some 42 }).deliveryCompany = some 42 :=
  (C10_webhook_never_reassigns_company exEnv
      { exWebhookPayload with companyId := some 7 }
      { exOrder with deliveryCompany := some 42 }).1 42 rfl

/-- C1: when company resolution, order lookup, configuration validation,
field-mapping validation and the provider send all succeed, sendOrder responds
with the success payload and persists on the order: deliveryCompany = the
resolved company's id, deliveryStatus = mapStatus of the provider status (or
assigned when the provider returned none), both tracking-number fields equal
to the returned tracking number, deliveryAssignedAt = now, deliveryResponse =
the raw provider payload, and deliveryFee exactly the supplied value with no
clamping. -/
theorem C1_sendOrder_success_persists (env : Env) (oid : Nat) (cid : Option Nat)
    (cc : Option String) (fee : Int) (o : Order) (c : DeliveryCompany) (pr : ProviderResult)
    (hcompany : resolveSendCompany env.companies cid cc = some c)
    (horder : findOrderById env.orders oid = some o)
    (hcfg : (validateCompanyConfiguration c).ok = true)
    (hmap : (validateRequiredMappings o c).ok = true)
    (hsend : env.send o c fee = .ok pr) :
    sendOrder env (SendRequest.mk (some oid) cid cc fee)
      = (.success pr.trackingNumber (mapStatus c (jsOrStr pr.providerStatus "assigned"))
           pr.providerResponse,
         saveOrder env.orders (sendOrderApply c pr env.now fee o)) ∧
    findOrderById (sendOrder env (SendRequest.mk (some oid) cid cc fee)).2 oid
      = some (sendOrderApply c pr env.now fee o) ∧
    (sendOrderApply c pr env.now fee o).deliveryCompany = some c.id ∧
    (sendOrderApply c pr env.now fee o).deliveryStatus
      = mapStatus c (jsOrStr pr.providerStatus "assigned") ∧
    (sendOrderApply c pr env.now fee o).deliveryTrackingNumber = some pr.trackingNumber ∧
    (sendOrderApply c pr env.now fee o).trackingNumber = some pr.trackingNumber ∧
    (sendOrderApply c pr env.now fee o).deliveryAssignedAt = some env.now ∧
    (sendOrderApply c pr env.now fee o).deliveryResponse = some pr.providerResponse ∧
    (sendOrderApply c pr env.now fee o).deliveryFee = fee := by
  have hmain : sendOrder env (SendRequest.mk (some oid) cid cc fee)
      = (.success pr.trackingNumber (mapStatus c (jsOrStr pr.providerStatus "assigned"))
           pr.providerResponse,
         saveOrder env.orders (sendOrderApply c pr env.now fee o)) := by
    simp [sendOrder, horder, hcompany, hcfg, hmap, hsend, sendOrderApply]
  have horder2 : env.orders.find? (fun x => x.id == oid) = some o := horder
  have hoid : o.id = oid := by
    have h1 := List.find?_some horder2
    simpa using h1
  have hid : (sendOrderApply c pr env.now fee o).id = oid := hoid
  have hmem : o ∈ env.orders := List.mem_of_find?_eq_some horder
  refine ⟨hmain, ?_, rfl, rfl, rfl, rfl, rfl, rfl, ?_⟩
  · rw [hmain]
    rw [show oid = (sendOrderApply c pr env.now fee o).id from hid.symm]
    exact findOrderById_saveOrder env.orders (sendOrderApply c pr env.now fee o)
      ⟨o, hmem, hoid.trans hid.symm⟩
  · show jsOrZero fee = fee
    exact jsOrZero_eq fee

/-- Witness for C1: sending exOrder with deliveryFee = -5 succeeds and the
persisted order keeps deliveryFee = -5 with both tracking fields mirroring
the provider's tracking number. -/
theorem C1_sendOrder_success_persists_witness :
    (sendOrder exEnv (SendRequest.mk (some 1) none none (-5))).1
      = .success "TRK9" "assigned" "raw-provider-payload" ∧
    findOrderById (sendOrder exEnv (SendRequest.mk (some 1) none none (-5))).2 1
      = some (sendOrderApply exCompany exProviderResult 1000 (-5) exOrder) ∧
    (sendOrderApply exCompany exProviderResult 1000 (-5) exOrder).deliveryFee = -5 := by
  have h := C1_sendOrder_success_persists exEnv 1 none none (-5) exOrder exCompany
    exProviderResult rfl rfl rfl rfl rfl
  refine ⟨?_, h.2.1, h.2.2.2.2.2.2.2.2⟩
  rw [h.1]
  rfl

/-- C2: when the company's configuration validation fails sendOrder responds
400 with the issues list, and when required field-mapping validation fails it
responds 400 with the missing-fields list and the payload preview; in both
cases the order collection is returned completely unchanged. -/
theorem C2_validation_failure_aborts (env : Env) (oid : Nat) (cid : Option Nat)
    (cc : Option String) (fee : Int) (o : Order) (c : DeliveryCompany)
    (horder : findOrderById env.orders oid = some o)
    (hcompany : resolveSendCompany env.companies cid cc = some c) :
    ((validateCompanyConfiguration c).ok = false →
      sendOrder env (SendRequest.mk (some oid) cid cc fee)
        = (.configInvalid (validateCompanyConfiguration c).issues
            (validateCompanyConfiguration c).mode (validateCompanyConfiguration c).url,
           env.orders) ∧
      sendStatusCode (.configInvalid (validateCompanyConfiguration c).issues
          (validateCompanyConfiguration c).mode (validateCompanyConfiguration c).url) = 400) ∧
    ((validateCompanyConfiguration c).ok = true →
      (validateRequiredMappings o c).ok = false →
      sendOrder env (SendRequest.mk (some oid) cid cc fee)
        = (.mappingMissing (validateRequiredMappings o c).missing
            (validateRequiredMappings o c).payload, env.orders) ∧
      sendStatusCode (.mappingMissing (validateRequiredMappings o c).missing
          (validateRequiredMappings o c).payload) = 400) := by
  constructor
  · intro hcfg
    exact ⟨by simp [sendOrder, horder, hcompany, hcfg], rfl⟩
  · intro hcfg hmap
    exact ⟨by simp [sendOrder, horder, hcompany, hcfg, hmap], rfl⟩

/-- Witness for C2: a company without a base URL aborts with its issues and an
untouched order list, and an order missing the required mapped attribute
aborts with the missing-field list and an untouched order list. -/
theorem C2_validation_failure_aborts_witness :
    (validateCompanyConfiguration exBadUrlCompany).ok = false ∧
    (sendOrder exEnvBadUrl (SendRequest.mk (some 1) none none 0)).2 = exEnvBadUrl.orders ∧
    (validateRequiredMappings exOrderNoName exCompany).ok = false ∧
    (sendOrder exEnvNoName (SendRequest.mk (some 1) none none 0)).2 = exEnvNoName.orders := by
  refine ⟨by decide, ?_, by decide, ?_⟩
  · rw [((C2_validation_failure_aborts exEnvBadUrl 1 none none 0 exOrder exBadUrlCompany
      rfl rfl).1 (by decide)).1]
  · rw [((C2_validation_failure_aborts exEnvNoName 1 none none 0 exOrderNoName exCompany
      rfl rfl).2 (by decide) (by decide)).1]

/-- The fixed-vocabulary fallback always lands inside the vocabulary. -/
theorem fallback_mem (n : String) :
    (if DELIVERY_ALLOWED_STATUSES.contains n then n else "assigned")
      ∈ DELIVERY_ALLOWED_STATUSES := by
  by_cases hc : DELIVERY_ALLOWED_STATUSES.contains n = true
  · rw [if_pos hc]
    simpa using hc
  · rw [if_neg hc]
    decide

/-- C3: for every provider status string, the deliveryStatus the webhook writes
is a member of the fixed 8-value vocabulary (given that the companies'
configured internalStatus values are internal statuses, per the data model);
and when no company is resolved, it is the normalized provider status when
that normalized value is itself one of the 8 fixed states, and assigned
otherwise. -/
theorem C3_webhook_status_vocabulary (env : Env) (p : WebhookPayload) (o : Order)
    (hwf : ∀ c ∈ env.companies, ∀ m ∈ c.statusMapping,
      m.internalStatus ∈ DELIVERY_ALLOWED_STATUSES) :
    (applyWebhookUpdate env p o).deliveryStatus ∈ DELIVERY_ALLOWED_STATUSES ∧
    (resolveWebhookCompany env p o = none →
      (applyWebhookUpdate env p o).deliveryStatus
        = (if DELIVERY_ALLOWED_STATUSES.contains
              (normalizeStatusValue (jsOrStr p.providerStatus "assigned"))
           then normalizeStatusValue (jsOrStr p.providerStatus "assigned")
           else "assigned")) := by
  rw [applyWebhookUpdate_deliveryStatus]
  unfold webhookStatusOf
  constructor
  · cases hrc : resolveWebhookCompany env p o with
    | none =>
      exact fallback_mem (normalizeStatusValue (jsOrStr p.providerStatus "assigned"))
    | some c =>
      have hcmem : c ∈ env.companies := resolveWebhookCompany_mem env p o c hrc
      unfold webhookMappedStatus mapStatus
      cases hf : c.statusMapping.find? (fun m =>
          normalizeStatusValue m.companyStatus
            == normalizeStatusValue (jsOrStr p.providerStatus "assigned")) with
      | some m =>
        simp only [hf]
        exact hwf c hcmem m (List.mem_of_find?_eq_some hf)
      | none =>
        simp only [hf]
        exact fallback_mem (normalizeStatusValue (jsOrStr p.providerStatus "assigned"))
  · intro hrc
    simp [webhookMappedStatus, hrc]

/-- Witness for C3: the company-less webhook update with a noisy provider
status writes a vocabulary member computed by the normalization fallback. -/
theorem C3_webhook_status_vocabulary_witness :
    (applyWebhookUpdate exEnv
        { exWebhookPayload with providerStatus := some "  Out  For Delivery " }
        exOrder).deliveryStatus ∈ DELIVERY_ALLOWED_STATUSES ∧
    (applyWebhookUpdate exEnv
        { exWebhookPayload with providerStatus := some "  Out  For Delivery " }
        exOrder).deliveryStatus = "out_for_delivery" :=
  ⟨(C3_webhook_status_vocabulary exEnv
      { exWebhookPayload with providerStatus := some "  Out  For Delivery " }
      exOrder (by decide)).1,
   by decide⟩

/-- C8: batchSendOrders converts every per-order failure into a per-order
result entry, so with stopOnError = false the loop emits exactly one entry per
requested order id; on the concrete batch [1, 2] against an environment where
order 2 does not exist, the summary is total = 2, succeeded = 1, failed = 1
and the second entry's error is Order not found. -/
theorem C8_batch_isolates_failures :
    (∀ (env : Env) (c : DeliveryCompany) (fee : Int) (ids : List Nat) (orders : List Order),
      (batchLoop env c fee false ids orders).1.length = ids.length) ∧
    (batchSendOrders exEnv [1, 2] none none 0 false).1
      = BatchResult.done false 7 "Speedy" 2 1 1
          [BatchEntry.mk 1 true (some "TRK9") (some "assigned") none none none,
           BatchEntry.mk 2 false none none (some "Order not found") none none] := by
  constructor
  · intro env c fee ids
    induction ids with
    | nil => intro orders; rfl
    | cons i rest ih =>
      intro orders
      simp [batchLoop, ih]
  · decide

/-- C9: the webhook status update is idempotent in effect: with the same
payload, token and external environment (clock included), applying the update
a second time leaves every field of the order exactly as after the first
application. -/
theorem C9_webhook_idempotent (env : Env) (p : WebhookPayload) (o : Order) :
    applyWebhookUpdate env p (applyWebhookUpdate env p o) = applyWebhookUpdate env p o := by
  have hrc := resolveWebhookCompany_apply env p o
  have hst := webhookStatusOf_apply env p o
  apply Order.ext
  · simp [applyWebhookUpdate_id]
  · simp [applyWebhookUpdate_orderNumber]
  · cases hos : p.orderStatus <;> simp [applyWebhookUpdate_status, hos]
  · simp [applyWebhookUpdate_attrs]
  · rw [applyWebhookUpdate_deliveryCompany env p (applyWebhookUpdate env p o), hrc]
    cases hrc0 : resolveWebhookCompany env p o with
    | none => rfl
    | some c =>
      cases hodc : o.deliveryCompany with
      | some cid =>
        have h1 : (applyWebhookUpdate env p o).deliveryCompany = some cid := by
          rw [applyWebhookUpdate_deliveryCompany, hrc0, hodc]
        rw [h1]
      | none =>
        have h1 : (applyWebhookUpdate env p o).deliveryCompany = some c.id := by
          rw [applyWebhookUpdate_deliveryCompany, hrc0, hodc]
        rw [h1]
  · rw [applyWebhookUpdate_deliveryStatus env p (applyWebhookUpdate env p o),
      applyWebhookUpdate_deliveryStatus env p o]
    exact hst
  · cases htn : p.trackingNumber <;>
      simp [applyWebhookUpdate_deliveryTrackingNumber, htn]
  · cases htn : p.trackingNumber <;>
      simp [applyWebhookUpdate_trackingNumber, htn]
  · simp [applyWebhookUpdate_deliveryAssignedAt]
  · simp [applyWebhookUpdate_deliveryFee]
  · simp [applyWebhookUpdate_deliveryResponse]
  · cases hn : p.notes <;> simp [applyWebhookUpdate_deliveryNotes, hn]
  · cases hd : p.estimatedDate <;> simp [applyWebhookUpdate_deliveryEstimatedDate, hd]
  · cases hpa : p.actualDate with
    | some d => simp [applyWebhookUpdate_deliveryActualDate, hpa]
    | none =>
      rw [applyWebhookUpdate_deliveryActualDate env p (applyWebhookUpdate env p o), hpa, hst]
      cases hb : (webhookStatusOf env p o == "delivered") with
      | false => simp
      | true =>
        cases hoa : o.deliveryActualDate with
        | some d0 =>
          have h1 : (applyWebhookUpdate env p o).deliveryActualDate = some d0 := by
            rw [applyWebhookUpdate_deliveryActualDate, hpa, hoa]
            simp
          rw [h1]
          simp
        | none =>
          have h1 : (applyWebhookUpdate env p o).deliveryActualDate = some env.now := by
            rw [applyWebhookUpdate_deliveryActualDate, hpa, hoa]
            simp [hb]
          rw [h1]
          simp
  · simp [applyWebhookUpdate_deliveryStatusUpdated]

end ZainDelivery
